import Mathlib

/-!
Shallow embedding of the notebook
`class examples/Spark Core/RDDs vs. DataFrames What Gives.ipynb`.

The notebook contains three code cells:
1. an RDD word-count pipeline over `dbfs:/FileStore/sherlock.txt`
   (`flatMap`/`filter`/`map`/`reduceByKey`/`sortBy`/`take(10)`),
2. a DataFrame word-count pipeline over the same file
   (`split`/`explode`/`filter`/`groupBy`/`count`/`orderBy`/`limit(10)`),
3. an RDD-to-DataFrame-and-back conversion example with an explicit
   two-field schema.

Words and lines are modelled as `List Char`; a text file is a list of
lines (the rows `spark.read.text` produces).  The Spark primitives the
notebook calls are given their standard sequential list semantics; the
distributed nondeterminism of ordering is resolved deterministically (a
stable sort, groups in key-dedup order), identically for both pipelines.
-/

namespace RDDvsDF

abbrev Word := List Char
abbrev Line := List Char

/-- Python `line.split(" ")` (also `pyspark.sql.functions.split(col, " ")`
with the single-space pattern): split on every single occurrence of the
space character, keeping empty fragments, so `"".split(" ") = [""]` and
`"a  b".split(" ") = ["a", "", "b"]`. -/
def splitOnSpace : Line → List Word
  | [] => [[]]
  | c :: rest =>
    match splitOnSpace rest with
    | [] => [[]]
    | w :: ws => if c = ' ' then [] :: w :: ws else (c :: w) :: ws

namespace Spark

/-- `RDD.map` / row-wise projection. -/
def map (f : α → β) (l : List α) : List β := l.map f

/-- `RDD.flatMap`; also `withColumn("word", explode(split(...)))`, which
turns each row into one row per produced element. -/
def flatMap (f : α → List β) (l : List α) : List β := l.flatMap f

/-- `RDD.filter` / `DataFrame.filter`. -/
def filter (p : α → Bool) (l : List α) : List α := l.filter p

/-- `RDD.take(n)`. -/
def take (n : Nat) (l : List α) : List α := l.take n

/-- `DataFrame.limit(n)`. -/
def limit (n : Nat) (l : List α) : List α := l.take n

/-- `RDD.collect` (the driver sees the elements). -/
def collect (l : List α) : List α := l

/-- `RDD.reduceByKey(f)`: one pair per distinct key, the values of the
key combined with `f`.  Keys appear in the deterministic order
`List.dedup` gives them. -/
def reduceByKey [DecidableEq κ] (f : β → β → β) (l : List (κ × β)) :
    List (κ × β) :=
  (l.map Prod.fst).dedup.filterMap (fun k =>
    match (l.filter (fun p => p.1 = k)).map Prod.snd with
    | [] => none
    | v :: vs => some (k, vs.foldl f v))

/-- `RDD.sortBy(keyfunc, ascending)`: a stable sort by the key. -/
def sortBy [LinearOrder β] (key : α → β) (ascending : Bool) (l : List α) :
    List α :=
  if ascending then l.insertionSort (fun a b => key a ≤ key b)
  else l.insertionSort (fun a b => key b ≤ key a)

/-- `DataFrame.orderBy(col, ascending)`: same sort semantics. -/
def orderBy [LinearOrder β] (key : α → β) (ascending : Bool) (l : List α) :
    List α :=
  if ascending then l.insertionSort (fun a b => key a ≤ key b)
  else l.insertionSort (fun a b => key b ≤ key a)

/-- `DataFrame.groupBy(key).count()`: one row per distinct key with the
number of input rows having that key. -/
def groupByCount [DecidableEq κ] (key : ρ → κ) (rows : List ρ) :
    List (κ × Nat) :=
  (rows.map key).dedup.map (fun k => (k, rows.countP (fun x => key x = k)))

end Spark

/-! ### Cell 1 — the RDD pipeline -/

/-- `spark.read.text(...).rdd.map(lambda row: row[0])`: each row of the
text DataFrame holds the line in its single column `value`, and the
lambda extracts it. -/
def lines_rdd (file : List Line) : List Line :=
  Spark.map (fun row => row) file

/-- `lines_rdd.flatMap(split).filter(len > 0).map((w,1)).reduceByKey(+)`. -/
def word_counts_rdd (file : List Line) : List (Word × Nat) :=
  Spark.reduceByKey (fun a b => a + b)
    (Spark.map (fun w => (w, 1))
      (Spark.filter (fun w => w.length > 0)
        (Spark.flatMap (fun line => splitOnSpace line) (lines_rdd file))))

/-- `word_counts_rdd.sortBy(lambda x: x[1], ascending=False).take(10)`. -/
def top_10_rdd (file : List Line) : List (Word × Nat) :=
  Spark.take 10 (Spark.sortBy (fun x => x.2) false (word_counts_rdd file))

/-! ### Cell 2 — the DataFrame pipeline -/

/-- `spark.read.text(...)`: one row per line, column `value`. -/
def lines_df (file : List Line) : List Line := file

/-- `lines_df.withColumn("word", explode(split(col("value"), " ")))
.filter(length(col("word")) >= 1)`: rows are (value, word) pairs. -/
def words_df (file : List Line) : List (Line × Word) :=
  Spark.filter (fun row => 1 ≤ row.2.length)
    (Spark.flatMap (fun row => (splitOnSpace row).map (fun w => (row, w)))
      (lines_df file))

/-- `words_df.groupBy("word").count().orderBy(col("count"),
ascending=False).limit(10)`. -/
def word_counts_df (file : List Line) : List (Word × Nat) :=
  Spark.limit 10
    (Spark.orderBy (fun x => x.2) false
      (Spark.groupByCount Prod.snd (words_df file)))

/-! ### Derived vocabulary used by the statements -/

/-- All space-separated tokens of the input text. -/
def tokens (file : List Line) : List Word :=
  file.flatMap splitOnSpace

/-- The non-empty space-separated tokens of the input text, in order. -/
def nonEmptyTokens (file : List Line) : List Word :=
  (tokens file).filter (fun w => w.length > 0)

/-- The distinct non-empty words of the input text. -/
def distinctWords (file : List Line) : List Word :=
  (nonEmptyTokens file).dedup

/-- The canonical word count table: one pair per distinct word, with its
multiplicity in the token list. -/
def wordCounts (ws : List Word) : List (Word × Nat) :=
  ws.dedup.map (fun w => (w, ws.count w))

/-! ### Helper lemmas -/

theorem splitOnSpace_ne_nil (line : Line) : splitOnSpace line ≠ [] := by
  cases line with
  | nil => simp [splitOnSpace]
  | cons c rest =>
    simp only [splitOnSpace]
    cases h : splitOnSpace rest with
    | nil => simp
    | cons w ws => by_cases hc : c = ' ' <;> simp [hc]

theorem splitOnSpace_no_space :
    ∀ (line : Line) (w : Word), w ∈ splitOnSpace line → ' ' ∉ w := by
  intro line
  induction line with
  | nil =>
    intro w hw
    simp only [splitOnSpace, List.mem_singleton] at hw
    subst hw
    simp
  | cons c rest ih =>
    intro w hw
    cases h : splitOnSpace rest with
    | nil => exact absurd h (splitOnSpace_ne_nil rest)
    | cons w0 ws =>
      simp only [splitOnSpace, h] at hw
      by_cases hc : c = ' '
      · rw [if_pos hc] at hw
        rcases List.mem_cons.mp hw with h1 | h1
        · subst h1; simp
        · exact ih w (by rw [h]; exact h1)
      · rw [if_neg hc] at hw
        rcases List.mem_cons.mp hw with h1 | h1
        · subst h1
          intro hmem
          rcases List.mem_cons.mp hmem with h2 | h2
          · exact hc h2.symm
          · exact ih w0 (by rw [h]; exact List.mem_cons_self w0 ws) h2
        · exact ih w (by rw [h]; exact List.mem_cons.mpr (Or.inr h1))

theorem foldl_add_replicate_one :
    ∀ (m v : Nat), (List.replicate m 1).foldl (fun a b => a + b) v = v + m := by
  intro m
  induction m with
  | zero => intro v; simp
  | succ k ih =>
    intro v
    simp only [List.replicate_succ, List.foldl_cons]
    rw [ih]
    omega

theorem filterMap_eq_map_of_forall_some {α β : Type} {f : α → Option β}
    {g : α → β} : ∀ {l : List α}, (∀ a ∈ l, f a = some (g a)) →
    l.filterMap f = l.map g := by
  intro l
  induction l with
  | nil => intro _; rfl
  | cons a rest ih =>
    intro h
    rw [List.filterMap_cons, h a (List.mem_cons_self a rest), List.map_cons,
      ih (fun x hx => h x (List.mem_cons.mpr (Or.inr hx)))]

/-- `reduceByKey` with `+` over unit counts is the word count table. -/
theorem reduceByKey_add_ones (ws : List Word) :
    Spark.reduceByKey (fun a b => a + b) (ws.map (fun w => (w, 1))) =
      wordCounts ws := by
  unfold Spark.reduceByKey wordCounts
  have hkeys : (ws.map (fun w => (w, (1 : Nat)))).map Prod.fst = ws := by
    rw [List.map_map]; exact List.map_id ws
  rw [hkeys]
  apply filterMap_eq_map_of_forall_some
  intro k hk
  have hk' : k ∈ ws := List.mem_dedup.mp hk
  have hfil : (ws.map (fun w => (w, (1 : Nat)))).filter (fun p => p.1 = k) =
      (ws.filter (fun w => w = k)).map (fun w => (w, (1 : Nat))) := by
    rw [List.filter_map]
    rfl
  rw [hfil, List.map_map]
  have hsnd : ((ws.filter (fun w => w = k)).map
      (Prod.snd ∘ fun w => (w, (1 : Nat)))) =
      List.replicate (ws.count k) 1 := by
    have hconst : (Prod.snd ∘ fun w : Word => (w, (1 : Nat))) =
        Function.const Word (1 : Nat) := rfl
    rw [hconst, List.map_const]
    congr 1
    rw [← List.countP_eq_length_filter, List.count_eq_countP]
    apply List.countP_congr
    intro w _
    by_cases hwk : w = k <;> simp [hwk]
  rw [hsnd]
  have hpos : 0 < ws.count k := List.count_pos_iff.mpr hk'
  rcases Nat.exists_eq_succ_of_ne_zero (Nat.pos_iff_ne_zero.mp hpos) with ⟨m, hm⟩
  rw [hm, List.replicate_succ]
  simp only [Option.some.injEq, Prod.mk.injEq, true_and]
  rw [foldl_add_replicate_one]
  omega

/-- The word column of the filtered exploded DataFrame is exactly the
RDD pipeline's filtered token list. -/
theorem words_df_snd (file : List Line) :
    (words_df file).map Prod.snd = nonEmptyTokens file := by
  unfold words_df nonEmptyTokens tokens lines_df Spark.filter Spark.flatMap
  have h1 : (fun row : Line × Word => decide (1 ≤ row.2.length)) =
      ((fun w : Word => decide (w.length > 0)) ∘ Prod.snd) := rfl
  rw [h1, ← List.filter_map, List.map_flatMap]
  have h2 : (fun a : Line =>
      List.map Prod.snd (List.map (fun w => (a, w)) (splitOnSpace a))) =
      splitOnSpace := by
    funext row
    rw [List.map_map]
    exact List.map_id' _
  rw [h2]

/-- `groupBy(key).count()` is the count table of the key column. -/
theorem groupByCount_eq_wordCounts (rows : List (Line × Word)) :
    Spark.groupByCount Prod.snd rows = wordCounts (rows.map Prod.snd) := by
  unfold Spark.groupByCount wordCounts
  have h1 : (fun k : Word => (k, rows.countP (fun x => x.2 = k))) =
      (fun w : Word => (w, (rows.map Prod.snd).count w)) := by
    funext k
    simp only [Prod.mk.injEq, true_and]
    rw [List.count_eq_countP, List.countP_map]
    apply List.countP_congr
    intro x _
    by_cases hx : x.2 = k <;> simp [hx]
  rw [h1]

/-- The RDD aggregation stage is the canonical word count table. -/
theorem word_counts_rdd_eq (file : List Line) :
    word_counts_rdd file = wordCounts (nonEmptyTokens file) := by
  unfold word_counts_rdd lines_rdd Spark.map Spark.filter Spark.flatMap
  rw [List.map_id', reduceByKey_add_ones]
  rfl

/-- The DataFrame aggregation stage is the same table. -/
theorem word_counts_df_pre_eq (file : List Line) :
    Spark.groupByCount Prod.snd (words_df file) =
      wordCounts (nonEmptyTokens file) := by
  rw [groupByCount_eq_wordCounts, words_df_snd]

/-- The deterministic model of the descending sort both pipelines use. -/
def sortDesc (l : List (Word × Nat)) : List (Word × Nat) :=
  l.insertionSort (fun a b => b.2 ≤ a.2)

theorem top_10_rdd_as_take (file : List Line) :
    top_10_rdd file = (sortDesc (word_counts_rdd file)).take 10 := rfl

theorem word_counts_df_as_take (file : List Line) :
    word_counts_df file =
      (sortDesc (Spark.groupByCount Prod.snd (words_df file))).take 10 := rfl

theorem df_pipeline_eq_rdd_pipeline (file : List Line) :
    word_counts_df file = top_10_rdd file := by
  rw [word_counts_df_as_take, top_10_rdd_as_take, word_counts_df_pre_eq,
    word_counts_rdd_eq]

theorem sortDesc_length (l : List (Word × Nat)) :
    (sortDesc l).length = l.length :=
  (List.perm_insertionSort _ l).length_eq

theorem wordCounts_length (ws : List Word) :
    (wordCounts ws).length = ws.dedup.length := by
  unfold wordCounts
  rw [List.length_map]

theorem mem_wordCounts {ws : List Word} {w : Word} {c : Nat}
    (h : (w, c) ∈ wordCounts ws) : w ∈ ws ∧ c = ws.count w := by
  unfold wordCounts at h
  rcases List.mem_map.mp h with ⟨a, ha, heq⟩
  simp only [Prod.mk.injEq] at heq
  obtain ⟨rfl, rfl⟩ := heq
  exact ⟨List.mem_dedup.mp ha, rfl⟩

instance : IsTotal (Word × Nat) (fun a b => b.2 ≤ a.2) :=
  ⟨fun a b => Nat.le_total b.2 a.2⟩

instance : IsTrans (Word × Nat) (fun a b => b.2 ≤ a.2) :=
  ⟨fun _ _ _ h1 h2 => Nat.le_trans h2 h1⟩

theorem sortDesc_sorted (l : List (Word × Nat)) :
    (sortDesc l).Pairwise (fun a b => b.2 ≤ a.2) :=
  List.sorted_insertionSort _ l

theorem pairwise_take_drop {l : List (Word × Nat)} {n : Nat}
    (h : l.Pairwise (fun a b => b.2 ≤ a.2)) {p q : Word × Nat}
    (hp : p ∈ l.take n) (hq : q ∈ l.drop n) : q.2 ≤ p.2 := by
  rw [← List.take_append_drop n l] at h
  exact (List.pairwise_append.mp h).2.2 p hp q hq

theorem mem_top10_wordCounts {file : List Line} {w : Word} {c : Nat}
    (h : (w, c) ∈ top_10_rdd file) :
    (w, c) ∈ wordCounts (nonEmptyTokens file) := by
  rw [top_10_rdd_as_take] at h
  have h2 := List.mem_of_mem_take h
  unfold sortDesc at h2
  have h3 := (List.perm_insertionSort _ _).mem_iff.mp h2
  rw [word_counts_rdd_eq] at h3
  exact h3

theorem top10_maximal (file : List Line) :
    ∀ p ∈ top_10_rdd file, ∀ w ∈ distinctWords file,
      w ∉ (top_10_rdd file).map Prod.fst →
      (tokens file).count w ≤ p.2 := by
  intro p hp w hw hex
  have hwNE : w ∈ nonEmptyTokens file := List.mem_dedup.mp hw
  have hwpos : (0 : Nat) < w.length :=
    of_decide_eq_true (List.mem_filter.mp hwNE).2
  have hcnt : (tokens file).count w = (nonEmptyTokens file).count w := by
    unfold nonEmptyTokens
    exact (@List.count_filter Word _ _ (fun w => decide (w.length > 0)) w
      (tokens file) (decide_eq_true hwpos)).symm
  have hmemA : (w, (nonEmptyTokens file).count w) ∈
      wordCounts (nonEmptyTokens file) := by
    unfold wordCounts
    exact List.mem_map_of_mem _ hw
  have hmemS : (w, (nonEmptyTokens file).count w) ∈
      sortDesc (word_counts_rdd file) := by
    rw [word_counts_rdd_eq]
    unfold sortDesc
    exact (List.perm_insertionSort _ _).mem_iff.mpr hmemA
  have hsplit := List.mem_append.mp (by
    rw [List.take_append_drop 10 (sortDesc (word_counts_rdd file))]
    exact hmemS)
  rcases hsplit with hTake | hDrop
  · exfalso
    apply hex
    rw [top_10_rdd_as_take]
    exact List.mem_map_of_mem Prod.fst hTake
  · rw [hcnt]
    refine pairwise_take_drop (sortDesc_sorted (word_counts_rdd file)) ?_ hDrop
    rw [top_10_rdd_as_take] at hp
    exact hp

/-! ### Claims -/

/-- C1: for every input text, the RDD pipeline (`flatMap`/`filter`/
`map`/`reduceByKey`/`sortBy` descending/`take 10`) and the DataFrame
pipeline (`split`/`explode`/`filter length >= 1`/`groupBy`/`count`/
`orderBy` descending/`limit 10`) produce the same list — hence the same
set — of (word, count) pairs. -/
theorem c1_pipelines_agree (file : List Line) :
    word_counts_df file = top_10_rdd file :=
  df_pipeline_eq_rdd_pipeline file

/-- C3: each pipeline's final result has exactly
`min 10 (number of distinct non-empty words)` pairs, so in particular at
most 10. -/
theorem c3_result_length (file : List Line) :
    (top_10_rdd file).length = min 10 (distinctWords file).length ∧
    (word_counts_df file).length = min 10 (distinctWords file).length := by
  have h1 : (top_10_rdd file).length = min 10 (distinctWords file).length := by
    rw [top_10_rdd_as_take, List.length_take, sortDesc_length,
      word_counts_rdd_eq, wordCounts_length]
    rfl
  refine ⟨h1, ?_⟩
  rw [word_counts_df_as_take, List.length_take, sortDesc_length,
    word_counts_df_pre_eq, wordCounts_length]
  rfl

/-- C9: every (word, count) pair in either pipeline's result has a
non-empty word containing no space character, and a count that is at
least 1 and equals the word's number of occurrences among the
space-separated tokens of the input text. -/
theorem c9_result_pair_invariant (file : List Line) (w : Word) (c : Nat)
    (h : (w, c) ∈ top_10_rdd file ∨ (w, c) ∈ word_counts_df file) :
    w ≠ [] ∧ ' ' ∉ w ∧ 1 ≤ c ∧ c = (tokens file).count w := by
  have hmem : (w, c) ∈ wordCounts (nonEmptyTokens file) := by
    rcases h with h | h
    · exact mem_top10_wordCounts h
    · rw [df_pipeline_eq_rdd_pipeline] at h
      exact mem_top10_wordCounts h
  rcases mem_wordCounts hmem with ⟨hw, hc⟩
  have hwt : w ∈ tokens file := (List.mem_filter.mp hw).1
  have hpos : (0 : Nat) < w.length :=
    of_decide_eq_true (List.mem_filter.mp hw).2
  refine ⟨?_, ?_, ?_, ?_⟩
  · intro hnil
    rw [hnil] at hpos
    simp at hpos
  · rcases List.mem_flatMap.mp hwt with ⟨line, _, hwline⟩
    exact splitOnSpace_no_space line w hwline
  · rw [hc]
    exact List.count_pos_iff.mpr hw
  · rw [hc]
    unfold nonEmptyTokens
    exact @List.count_filter Word _ _ (fun w => decide (w.length > 0)) w
      (tokens file) (decide_eq_true hpos)

/-- Witness for C9 at the one-line text `"a b a"`. -/
theorem c9_witness :
    "a".toList ≠ ([] : Word) ∧ ' ' ∉ "a".toList ∧ 1 ≤ 2 ∧
      2 = (tokens ["a b a".toList]).count "a".toList :=
  c9_result_pair_invariant ["a b a".toList] "a".toList 2 (Or.inl (by decide))

/-- C10: each pipeline's result is sorted in non-increasing order of
count, and every word in the result has a count at least that of every
distinct non-empty word of the text excluded from the result. -/
theorem c10_sorted_and_maximal (file : List Line) :
    (top_10_rdd file).Pairwise (fun a b => b.2 ≤ a.2) ∧
    (word_counts_df file).Pairwise (fun a b => b.2 ≤ a.2) ∧
    (∀ p ∈ top_10_rdd file, ∀ w ∈ distinctWords file,
      w ∉ (top_10_rdd file).map Prod.fst →
      (tokens file).count w ≤ p.2) ∧
    (∀ p ∈ word_counts_df file, ∀ w ∈ distinctWords file,
      w ∉ (word_counts_df file).map Prod.fst →
      (tokens file).count w ≤ p.2) := by
  have hsorted : (top_10_rdd file).Pairwise (fun a b => b.2 ≤ a.2) := by
    rw [top_10_rdd_as_take]
    exact List.Pairwise.sublist (List.take_sublist 10 _)
      (sortDesc_sorted (word_counts_rdd file))
  refine ⟨hsorted, ?_, top10_maximal file, ?_⟩
  · rw [df_pipeline_eq_rdd_pipeline]
    exact hsorted
  · rw [df_pipeline_eq_rdd_pipeline]
    exact top10_maximal file

/-- Witness for C10 at a text with eleven distinct words: the word `"k"`
is excluded from the top ten and its count is bounded by the count of
the included word `"a"`. -/
theorem c10_witness :
    (tokens ["a a b c d e f g h i j k".toList]).count "k".toList ≤ 2 :=
  (c10_sorted_and_maximal ["a a b c d e f g h i j k".toList]).2.2.1
    ("a".toList, 2) (by decide) "k".toList (by decide) (by decide)

/-! ### Cell 3 — framework schema types and `createDataFrame` -/

namespace Spark

/-- The two `pyspark.sql.types` data types the notebook imports and
uses (`StringType()`, `IntegerType()`). -/
inductive DataType
  | string
  | integer
deriving DecidableEq

/-- `pyspark.sql.types.StructField(name, dataType, nullable)`. -/
structure StructField where
  fieldName : String
  dataType : DataType
  nullable : Bool
deriving DecidableEq

/-- `pyspark.sql.types.StructType(fields)`. -/
structure StructType where
  fields : List StructField
deriving DecidableEq

/-- A cell value of a DataFrame row: a Python `str`, a Python `int`
bound for `IntegerType`, or SQL null. -/
inductive Value
  | null
  | str (s : Word)
  | int (n : Int)
deriving DecidableEq

abbrev Row := List Value

/-- Row indexing `row[i]`. -/
def rowGet (row : Row) (i : Nat) : Value := row.getD i Value.null

/-- Does a value fit a field of the schema? `IntegerType` is a signed
32-bit column. -/
def conforms (v : Value) (f : StructField) : Bool :=
  match v with
  | .null => f.nullable
  | .str _ => f.dataType == DataType.string
  | .int n => f.dataType == DataType.integer &&
      decide (-(2 ^ 31) ≤ n) && decide (n < 2 ^ 31)

def rowConforms (row : Row) (st : StructType) : Bool :=
  row.length == st.fields.length &&
    (row.zip st.fields).all (fun p => conforms p.1 p.2)

/-- The native framework errors the notebook can trigger. -/
inductive SparkError
  | pathNotFound (path : String)
  | schemaMismatch
deriving DecidableEq

/-- `spark.createDataFrame(data, schema)`: validates every row against
the schema and yields the rows in order; raises the framework's native
error on a mismatch. -/
def createDataFrame (data : List Row) (st : StructType) :
    Except SparkError (List Row) :=
  if data.all (fun row => rowConforms row st) then Except.ok data
  else Except.error SparkError.schemaMismatch

end Spark

/-- `spark.sparkContext.parallelize([("apple", 5), ("banana", 10),
("apple", 2)])`. -/
def data_rdd : List (Spark.Value × Spark.Value) :=
  [(Spark.Value.str "apple".toList, Spark.Value.int 5),
   (Spark.Value.str "banana".toList, Spark.Value.int 10),
   (Spark.Value.str "apple".toList, Spark.Value.int 2)]

/-- The schema the notebook builds: fruit as nullable string, count as
nullable integer. -/
def schema : Spark.StructType :=
  Spark.StructType.mk
    [Spark.StructField.mk "fruit" Spark.DataType.string true,
     Spark.StructField.mk "count" Spark.DataType.integer true]

/-- `spark.createDataFrame(data_rdd, schema)`; each source tuple becomes
a two-column row. -/
def df_from_rdd : Except Spark.SparkError (List Spark.Row) :=
  Spark.createDataFrame (data_rdd.map (fun p => [p.1, p.2])) schema

/-- `df_from_rdd.rdd.map(lambda row: (row[0], row[1]))`. -/
def rdd_from_df :
    Except Spark.SparkError (List (Spark.Value × Spark.Value)) :=
  df_from_rdd.map (fun df =>
    Spark.map (fun row => (Spark.rowGet row 0, Spark.rowGet row 1)) df)

/-- C8: converting the RDD `[("apple", 5), ("banana", 10), ("apple", 2)]`
to a DataFrame with the (fruit: string, count: integer) schema and back
to an RDD of pairs, then collecting, yields exactly the original three
pairs: the round trip is the identity on this data. -/
theorem c8_roundtrip_identity :
    rdd_from_df.map (fun l => Spark.collect l) = Except.ok data_rdd := rfl

/-- C6: the conversion example constructs its schema purely from the
framework's schema types — exactly the two nullable framework-typed
fields (fruit: string, count: integer) — and the example's data conforms
to that framework schema; no datatype beyond the framework-modelled ones
occurs. -/
theorem c6_schema_is_framework_value :
    schema = Spark.StructType.mk
      [Spark.StructField.mk "fruit" Spark.DataType.string true,
       Spark.StructField.mk "count" Spark.DataType.integer true] ∧
    (data_rdd.map (fun p => [p.1, p.2])).all
      (fun row => Spark.rowConforms row schema) = true :=
  ⟨rfl, rfl⟩

/-! ### The notebook as an effectful script -/

/-- The console events the notebook prints: a plain message, one
word/count line of the RDD print loop, a `show()` of the word-count
DataFrame, a `show()` of the conversion DataFrame, and one `print` of a
collected pair. -/
inductive Output
  | msg (s : String)
  | pair (w : Word) (c : Nat)
  | table (rows : List (Word × Nat))
  | frame (rows : List Spark.Row)
  | elem (a : Spark.Value) (b : Spark.Value)
deriving DecidableEq

/-- The state the notebook can see or touch: the DBFS file store
(`path ↦ lines`) and the console. -/
structure NotebookState where
  fs : String → Option (List Line)
  console : List Output

def sherlockPath : String := "dbfs:/FileStore/sherlock.txt"

/-- `spark.read.text(path)`: the lines of the file, or the framework's
native error when the path is missing. -/
def readText (s : NotebookState) (path : String) :
    Except Spark.SparkError (List Line) :=
  match s.fs path with
  | none => Except.error (Spark.SparkError.pathNotFound path)
  | some file => Except.ok file

/-- What cell 1 prints: the header, then one line per top-10 pair. -/
def rddCellOutput (file : List Line) : List Output :=
  Output.msg "Top 10 words using RDD:" ::
    (top_10_rdd file).map (fun p => Output.pair p.1 p.2)

/-- What cell 2 prints: the header, then `word_counts_df.show()`. -/
def dfCellOutput (file : List Line) : List Output :=
  [Output.msg "Top 10 words using DataFrame:",
   Output.table (word_counts_df file)]

/-- Cell 1: read the file, run the RDD pipeline, print. -/
def runRDDCell (s : NotebookState) :
    Except Spark.SparkError NotebookState :=
  (readText s sherlockPath).map (fun file =>
    { s with console := s.console ++ rddCellOutput file })

/-- Cell 2: read the file, run the DataFrame pipeline, `show()`. -/
def runDFCell (s : NotebookState) :
    Except Spark.SparkError NotebookState :=
  (readText s sherlockPath).map (fun file =>
    { s with console := s.console ++ dfCellOutput file })

/-- Cell 3 with the input data made explicit, so that schema mismatches
can be stated: `createDataFrame`, `show()`, convert back, print each
collected element. -/
def runConversionCellWith (data : List Spark.Row) (s : NotebookState) :
    Except Spark.SparkError NotebookState :=
  (Spark.createDataFrame data schema).map (fun df =>
    { s with console := s.console ++
        ([Output.msg "DataFrame from RDD:", Output.frame df,
          Output.msg "RDD from DataFrame:"] ++
          (Spark.collect (Spark.map (fun row =>
            (Spark.rowGet row 0, Spark.rowGet row 1)) df)).map
            (fun e => Output.elem e.1 e.2)) })

/-- Cell 3 as written, on the notebook's fixed `data_rdd`. -/
def runConversionCell (s : NotebookState) :
    Except Spark.SparkError NotebookState :=
  runConversionCellWith (data_rdd.map (fun p => [p.1, p.2])) s

/-- What cell 3 prints. -/
def conversionOutput : List Output :=
  [Output.msg "DataFrame from RDD:",
   Output.frame (data_rdd.map (fun p => [p.1, p.2])),
   Output.msg "RDD from DataFrame:"] ++
  data_rdd.map (fun e => Output.elem e.1 e.2)

/-- The notebook: the three code cells in order; a failing cell aborts
the run with the framework's error — nothing catches it. -/
def runNotebook (s : NotebookState) :
    Except Spark.SparkError NotebookState :=
  (runRDDCell s).bind (fun s1 => (runDFCell s1).bind runConversionCell)

/-- Everything a complete run appends to the console when the input file
holds `file`. -/
def notebookOutput (file : List Line) : List Output :=
  rddCellOutput file ++ dfCellOutput file ++ conversionOutput

/-! ### Effect helper lemmas -/

theorem runRDDCell_ok {s : NotebookState} {file : List Line}
    (h : s.fs sherlockPath = some file) :
    runRDDCell s =
      Except.ok { s with console := s.console ++ rddCellOutput file } := by
  unfold runRDDCell readText
  rw [h]
  rfl

theorem runDFCell_ok {s : NotebookState} {file : List Line}
    (h : s.fs sherlockPath = some file) :
    runDFCell s =
      Except.ok { s with console := s.console ++ dfCellOutput file } := by
  unfold runDFCell readText
  rw [h]
  rfl

theorem runConversionCell_ok (s : NotebookState) :
    runConversionCell s =
      Except.ok { s with console := s.console ++ conversionOutput } := rfl

theorem runRDDCell_err {s : NotebookState} (h : s.fs sherlockPath = none) :
    runRDDCell s =
      Except.error (Spark.SparkError.pathNotFound sherlockPath) := by
  unfold runRDDCell readText
  rw [h]
  rfl

theorem runNotebook_ok {s : NotebookState} {file : List Line}
    (h : s.fs sherlockPath = some file) :
    runNotebook s =
      Except.ok { s with console := s.console ++ notebookOutput file } := by
  have h1 : ({ s with console := s.console ++ rddCellOutput file } :
      NotebookState).fs sherlockPath = some file := h
  unfold runNotebook
  rw [runRDDCell_ok h]
  simp only [Except.bind]
  rw [runDFCell_ok h1]
  simp only [Except.bind]
  rw [runConversionCell_ok]
  unfold notebookOutput
  simp [List.append_assoc]

theorem runNotebook_err {s : NotebookState} (h : s.fs sherlockPath = none) :
    runNotebook s =
      Except.error (Spark.SparkError.pathNotFound sherlockPath) := by
  unfold runNotebook
  rw [runRDDCell_err h]
  rfl

/-- The output a run appends to the console (what the user of the
notebook actually sees from the run). -/
def notebookRunOutput (s : NotebookState) :
    Except Spark.SparkError (List Output) :=
  (runNotebook s).map (fun t => t.console.drop s.console.length)

/-- C2: the notebook implements no error handling: a missing input file
makes the whole run return the framework's native error unchanged, and
data not matching the schema given to `createDataFrame` makes the
conversion cell return the framework's native error unchanged — no
operation catches, wraps or transforms either, and no fallback result is
produced. -/
theorem c2_errors_propagate_unhandled :
    (∀ s : NotebookState, s.fs sherlockPath = none →
      runNotebook s =
        Except.error (Spark.SparkError.pathNotFound sherlockPath)) ∧
    (∀ (data : List Spark.Row) (s : NotebookState),
      data.all (fun row => Spark.rowConforms row schema) = false →
      runConversionCellWith data s =
        Except.error Spark.SparkError.schemaMismatch) := by
  constructor
  · intro s h
    exact runNotebook_err h
  · intro data s h
    unfold runConversionCellWith Spark.createDataFrame
    rw [h]
    rfl

/-- Witness for C2: an empty file store, and a one-column row that does
not match the two-column schema. -/
theorem c2_witness :
    runNotebook ⟨fun _ => none, []⟩ =
      Except.error (Spark.SparkError.pathNotFound sherlockPath) ∧
    runConversionCellWith [[Spark.Value.int 99]] ⟨fun _ => none, []⟩ =
      Except.error Spark.SparkError.schemaMismatch :=
  ⟨c2_errors_propagate_unhandled.1 ⟨fun _ => none, []⟩ rfl,
   c2_errors_propagate_unhandled.2 [[Spark.Value.int 99]]
     ⟨fun _ => none, []⟩ rfl⟩

/-- C4: the notebook is deterministic and its printed output depends
only on the contents of the input text file: two runs from any two
states agreeing on that file — whatever else the file store or console
holds — produce identical results. -/
theorem c4_output_depends_only_on_file (s t : NotebookState)
    (h : s.fs sherlockPath = t.fs sherlockPath) :
    notebookRunOutput s = notebookRunOutput t := by
  cases hf : s.fs sherlockPath with
  | none =>
    have ht : t.fs sherlockPath = none := by rw [← h]; exact hf
    unfold notebookRunOutput
    rw [runNotebook_err hf, runNotebook_err ht]
    rfl
  | some file =>
    have ht : t.fs sherlockPath = some file := by rw [← h]; exact hf
    unfold notebookRunOutput
    rw [runNotebook_ok hf, runNotebook_ok ht]
    simp only [Except.map, List.drop_left]

/-- Witness for C4: two states with the same sherlock file but different
consoles and different unrelated files. -/
theorem c4_witness :
    notebookRunOutput
        ⟨fun p => if p = sherlockPath then some ["a b a".toList] else none,
         []⟩ =
      notebookRunOutput
        ⟨fun p => if p = sherlockPath then some ["a b a".toList]
          else some ["other".toList],
         [Output.msg "earlier output"]⟩ :=
  c4_output_depends_only_on_file _ _ (by simp)

/-- C5: the notebook's only effect is console output: a successful run
leaves the file store untouched and only appends to the console; no file
is written and no other state is persisted. -/
theorem c5_only_console_changes (s t : NotebookState)
    (h : runNotebook s = Except.ok t) :
    t.fs = s.fs ∧ ∃ out, t.console = s.console ++ out := by
  cases hf : s.fs sherlockPath with
  | none =>
    rw [runNotebook_err hf] at h
    exact Except.noConfusion h
  | some file =>
    rw [runNotebook_ok hf] at h
    have h2 := Except.ok.inj h
    rw [← h2]
    exact ⟨rfl, notebookOutput file, rfl⟩

def fs₁ : String → Option (List Line) :=
  fun p => if p = sherlockPath then some ["a b a".toList] else none

def s₁ : NotebookState := ⟨fs₁, []⟩

def t₁ : NotebookState := ⟨fs₁, notebookOutput ["a b a".toList]⟩

/-- Witness for C5 on a concrete one-line file. -/
theorem c5_witness : t₁.fs = s₁.fs ∧ ∃ out, t₁.console = s₁.console ++ out :=
  c5_only_console_changes s₁ t₁ rfl

/-- C7: every operation of the notebook — file reading, word splitting,
counting, sorting, schema-checked conversion and RDD/DataFrame
interconversion — is definitionally a direct application of the modelled
framework primitives, with only the source's inline lambdas as
arguments; no additional logic is layered on top. -/
theorem c7_direct_framework_calls (file : List Line) (s : NotebookState) :
    lines_rdd file = Spark.map (fun row => row) file ∧
    word_counts_rdd file =
      Spark.reduceByKey (fun a b => a + b)
        (Spark.map (fun w => (w, 1))
          (Spark.filter (fun w => w.length > 0)
            (Spark.flatMap (fun line => splitOnSpace line)
              (lines_rdd file)))) ∧
    top_10_rdd file =
      Spark.take 10
        (Spark.sortBy (fun x => x.2) false (word_counts_rdd file)) ∧
    words_df file =
      Spark.filter (fun row => 1 ≤ row.2.length)
        (Spark.flatMap
          (fun row => (splitOnSpace row).map (fun w => (row, w)))
          (lines_df file)) ∧
    word_counts_df file =
      Spark.limit 10
        (Spark.orderBy (fun x => x.2) false
          (Spark.groupByCount Prod.snd (words_df file))) ∧
    runRDDCell s = (readText s sherlockPath).map (fun f =>
      { s with console := s.console ++ rddCellOutput f }) ∧
    df_from_rdd =
      Spark.createDataFrame (data_rdd.map (fun p => [p.1, p.2])) schema ∧
    rdd_from_df = df_from_rdd.map (fun df =>
      Spark.map (fun row => (Spark.rowGet row 0, Spark.rowGet row 1)) df) :=
  ⟨rfl, rfl, rfl, rfl, rfl, rfl, rfl, rfl⟩

end RDDvsDF
